import Mathlib

/-!
Verification development for the air-canvas gesture drawing application.

The development shallowly embeds the two core components of the program:

* the stroke store (`class DrawingCanvas` in `src/drawingCanvas.ts`): an
  in-progress stroke plus a list of completed strokes, with the operations
  `startStroke`, `addPoint`, `pauseStroke`, `closeStroke`, `discardStroke`,
  `clearAll`, `removeCompletedStroke`;
* the gesture interpreter (`class AirCanvas` in `main.ts`, reproduced in the
  repository README): per-frame dispatch on the classified gesture kind,
  wall-clock hold timers for palm (close stroke) and fist (clear all), the
  grabbed-object reference, and the closing-animation / balloon-creation
  sequence.

Coordinates are modelled as rationals.  The source computes Euclidean
distance with `Math.sqrt(dx*dx + dy*dy)` over IEEE floats; an exact
computable counterpart of that metric does not exist over the rationals, so
the metric is carried as an explicit function field `dist` of the
configuration record.  Every theorem below depends only on the values the
metric returns, so each statement holds in particular for the Euclidean
metric of the source; witnesses instantiate `dist` with a concrete
computable metric that agrees with the Euclidean one on the axis-aligned
points they use.

The configuration constants (`constants.ts` is not among the sources; the
spec lists them as externally supplied configuration) are carried in a
`Config` record and quantified over in the theorems.
-/

/-- A 2D point in viewport pixel coordinates (`types.ts`, `Point2D`). -/
structure Point2D where
  x : ℚ
  y : ℚ
deriving DecidableEq, Repr

/-- A stroke (`types.ts`, `Stroke`): ordered points, color, width, closed flag. -/
structure Stroke where
  points : List Point2D
  color : String
  width : ℚ
  closed : Bool
deriving DecidableEq, Repr

/-- Modelled from the spec: `constants.ts` is missing from the sources, and the
spec (section 6) lists these as externally supplied configuration constants.
`dist` abstracts the Euclidean metric `Math.sqrt(dx*dx+dy*dy)` of
`DrawingCanvas.distance`, as explained in the file header. -/
structure Config where
  minPointDistance : ℚ
  minStrokeLength : ℚ
  palmHoldTime : ℚ
  fistHoldTime : ℚ
  strokeClosePulse : ℚ
  strokeWidth : ℚ
  palette : List String
  dist : Point2D → Point2D → ℚ

/-- The state owned by `class DrawingCanvas`: the in-progress stroke and the
completed-but-not-yet-solidified strokes. -/
structure CanvasState where
  currentStroke : Option Stroke
  completedStrokes : List Stroke
deriving DecidableEq, Repr

namespace DrawingCanvas

/-- Sum of the metric over consecutive pairs, the loop body of
`calculateStrokeLength`. -/
def pathLen (d : Point2D → Point2D → ℚ) : List Point2D → ℚ
  | [] => 0
  | [_] => 0
  | a :: b :: rest => d a b + pathLen d (b :: rest)

/-- `DrawingCanvas.startStroke`: begin a new single-point stroke, overwriting
any in-progress stroke. -/
def startStroke (cfg : Config) (point : Point2D) (color : String) (c : CanvasState) :
    CanvasState :=
  { c with currentStroke := some { points := [point], color := color,
                                   width := cfg.strokeWidth, closed := false } }

/-- `DrawingCanvas.addPoint`: no-op without a current stroke; otherwise append
the raw point exactly when its distance from the last stored point is at
least the minimum spacing (`dist >= STROKE.MIN_POINT_DISTANCE`). -/
def addPoint (cfg : Config) (point : Point2D) (c : CanvasState) : CanvasState :=
  match c.currentStroke with
  | Option.none => c
  | some st =>
    match st.points.getLast? with
    | Option.none => c
    | some lastPoint =>
      if cfg.minPointDistance ≤ cfg.dist point lastPoint then
        { c with currentStroke := some { st with points := st.points ++ [point] } }
      else c

/-- `DrawingCanvas.pauseStroke`: documented no-op, the stroke is retained. -/
def pauseStroke (c : CanvasState) : CanvasState := c

/-- `DrawingCanvas.discardStroke`: drop the current stroke unconditionally. -/
def discardStroke (c : CanvasState) : CanvasState :=
  { c with currentStroke := Option.none }

/-- `DrawingCanvas.calculateStrokeLength`: 0 without a current stroke or with
fewer than 2 points, otherwise the sum of consecutive segment distances. -/
def calculateStrokeLength (cfg : Config) (c : CanvasState) : ℚ :=
  match c.currentStroke with
  | Option.none => 0
  | some st => if st.points.length < 2 then 0 else pathLen cfg.dist st.points

/-- `DrawingCanvas.closeStroke`: returns the closed stroke snapshot and the new
store state.  A stroke shorter than `GESTURE.MIN_STROKE_LENGTH` or with at
most 2 points is discarded and `null` is returned; otherwise the stroke is
marked closed, pushed onto the completed list, and the current reference is
cleared. -/
def closeStroke (cfg : Config) (c : CanvasState) : Option Stroke × CanvasState :=
  match c.currentStroke with
  | Option.none => (Option.none, c)
  | some st =>
    if calculateStrokeLength cfg c < cfg.minStrokeLength then
      (Option.none, discardStroke c)
    else if 2 < st.points.length then
      let closedStroke := { st with closed := true }
      (some closedStroke,
       { currentStroke := Option.none,
         completedStrokes := c.completedStrokes ++ [closedStroke] })
    else
      (Option.none, discardStroke c)

/-- `DrawingCanvas.clearAll`: drop the current stroke and every completed one. -/
def clearAll (_c : CanvasState) : CanvasState :=
  { currentStroke := Option.none, completedStrokes := [] }

/-- `DrawingCanvas.removeCompletedStroke`: `indexOf` plus `splice(index, 1)`,
i.e. remove the first occurrence of the given stroke, if present. -/
def removeCompletedStroke (stroke : Stroke) (c : CanvasState) : CanvasState :=
  { c with completedStrokes := c.completedStrokes.erase stroke }

end DrawingCanvas

/-- The minimum-spacing invariant between consecutive stored points, in the
orientation checked by the source (`distance(newPoint, lastPoint)`). -/
def spaced (cfg : Config) (l : List Point2D) : Prop :=
  List.Chain' (fun a b => cfg.minPointDistance ≤ cfg.dist b a) l

/-- The spacing invariant of the current stroke of a store state (vacuous when
no stroke is in progress). -/
def spacedCurrent (cfg : Config) (c : CanvasState) : Prop :=
  match c.currentStroke with
  | Option.none => True
  | some st => spaced cfg st.points

/-- The closed enumeration of classified gestures (`types.ts`, `GestureType`). -/
inductive GestureKind where
  | none
  | draw
  | pinch
  | palm
  | fist
  | swipe
deriving DecidableEq, Repr

/-- One tracked frame as the interpreter sees it: the classified gesture kind,
the wall-clock timestamp (`performance.now()`), the two query points supplied
by the gesture classifier, and the results of the object-manager hit tests at
those points (the object manager is an external collaborator, so its
`getObjectAtPosition` answers are inputs of the model). -/
structure Frame where
  kind : GestureKind
  time : ℚ
  indexTip : Point2D
  pinchCenter : Point2D
  hitAtIndexTip : Option Nat
  hitAtPinch : Option Nat
deriving DecidableEq, Repr

/-- The interpreter state of `class AirCanvas` (first README variant): drawing
flag, cyclic color index, the two hold-timer start timestamps (0 = unset, as
in the source), the grabbed-object reference, hand-detected flag, the last
gesture kind, and the owned stroke store. -/
structure InterpState where
  isDrawing : Bool
  currentColorIndex : Nat
  palmHoldStart : ℚ
  fistHoldStart : ℚ
  grabbedObject : Option Nat
  handDetected : Bool
  lastGesture : Option GestureKind
  canvas : CanvasState
deriving DecidableEq, Repr

/-- Which store-level actions a frame dispatch fired: `closeFired` records an
invocation of `closeAndInflate` (palm hold completed), `clearFired` an
invocation of `clearAll` (fist hold completed). -/
structure FrameOut where
  closeFired : Bool
  clearFired : Bool
deriving DecidableEq, Repr

/-- No action fired during the frame. -/
def noActions : FrameOut := { closeFired := false, clearFired := false }

namespace AirCanvas

/-- `AirCanvas.handleDraw`: poke (externally) when the fingertip hits an
object; otherwise start a new stroke with the active color when not drawing,
or extend the current stroke. -/
def handleDraw (cfg : Config) (s : InterpState) (f : Frame) : InterpState :=
  match f.hitAtIndexTip with
  | some _ => s
  | Option.none =>
    if s.isDrawing then
      { s with canvas := DrawingCanvas.addPoint cfg f.indexTip s.canvas }
    else
      { s with isDrawing := true,
               canvas := DrawingCanvas.startStroke cfg f.indexTip
                 (cfg.palette.getD s.currentColorIndex "") s.canvas }

/-- `AirCanvas.handlePinch`: pause drawing (keeping the stroke); grab the
object under the pinch center when none is grabbed, otherwise keep (and
externally move) the grabbed object. -/
def handlePinch (s : InterpState) (f : Frame) : InterpState :=
  let s1 := if s.isDrawing then { s with isDrawing := false } else s
  match s1.grabbedObject with
  | some _ => s1
  | Option.none =>
    match f.hitAtPinch with
    | some r => { s1 with grabbedObject := some r }
    | Option.none => s1

/-- The synchronous part of `AirCanvas.closeAndInflate`: close the stroke; on
`null` only the store mutation of `closeStroke` happens, otherwise the
drawing flag is cleared and the closing animation is scheduled. -/
def closeAndInflate (cfg : Config) (s : InterpState) : InterpState :=
  let r := DrawingCanvas.closeStroke cfg s.canvas
  match r.1 with
  | Option.none => { s with canvas := r.2 }
  | some _ => { s with canvas := r.2, isDrawing := false }

/-- `AirCanvas.handlePalm`: release any grabbed object; start the palm hold
timer if unset; once the hold reaches `GESTURE.PALM_HOLD_TIME`, run
`closeAndInflate` and reset the timer. -/
def handlePalm (cfg : Config) (s : InterpState) (now : ℚ) : InterpState × FrameOut :=
  let s1 := { s with grabbedObject := Option.none }
  let start := if s1.palmHoldStart = 0 then now else s1.palmHoldStart
  let s2 := { s1 with palmHoldStart := start }
  if cfg.palmHoldTime ≤ now - start then
    ({ closeAndInflate cfg s2 with palmHoldStart := 0 },
     { closeFired := true, clearFired := false })
  else (s2, noActions)

/-- `AirCanvas.handleFist`: start the fist hold timer if unset; once the hold
reaches `GESTURE.FIST_HOLD_TIME`, clear the store (and, externally, all 3D
objects) and reset the timer; below the threshold only a progress message is
shown. -/
def handleFist (cfg : Config) (s : InterpState) (now : ℚ) : InterpState × FrameOut :=
  let start := if s.fistHoldStart = 0 then now else s.fistHoldStart
  let s1 := { s with fistHoldStart := start }
  if cfg.fistHoldTime ≤ now - start then
    ({ s1 with fistHoldStart := 0, canvas := DrawingCanvas.clearAll s1.canvas },
     { closeFired := false, clearFired := true })
  else (s1, noActions)

/-- `AirCanvas.handleSwipe`: purely external (`removeObject` on a hit); no
interpreter-state change. -/
def handleSwipe (s : InterpState) (_f : Frame) : InterpState := s

/-- The `default` branch of the gesture switch: release any grabbed object. -/
def handleDefault (s : InterpState) : InterpState :=
  { s with grabbedObject := Option.none }

/-- The switch block of `AirCanvas.handleGesture`. -/
def dispatch (cfg : Config) (s : InterpState) (f : Frame) : InterpState × FrameOut :=
  match f.kind with
  | GestureKind.draw => (handleDraw cfg s f, noActions)
  | GestureKind.pinch => (handlePinch s f, noActions)
  | GestureKind.palm => handlePalm cfg s f.time
  | GestureKind.fist => handleFist cfg s f.time
  | GestureKind.swipe => (handleSwipe s f, noActions)
  | GestureKind.none => (handleDefault s, noActions)

/-- `AirCanvas.handleGesture`: dispatch on the gesture kind, then reset both
hold timers when the kind differs from the previous frame. -/
def handleGesture (cfg : Config) (s : InterpState) (f : Frame) : InterpState × FrameOut :=
  let r := dispatch cfg s f
  match s.lastGesture with
  | some g0 =>
    if f.kind ≠ g0 then
      ({ r.1 with palmHoldStart := 0, fistHoldStart := 0 }, r.2)
    else r
  | Option.none => r

/-- One tracked frame with landmarks present: `handleGesture` followed by the
`lastGestureState` update of `onHandResults`. -/
def frameStep (cfg : Config) (s : InterpState) (f : Frame) : InterpState × FrameOut :=
  let r := handleGesture cfg s f
  ({ r.1 with lastGesture := some f.kind }, r.2)

/-- `AirCanvas.onHandResults`: with `null` landmarks, record the lost hand and
clear the drawing flag, touching nothing else; with landmarks, dispatch the
classified gesture. -/
def onHandResults (cfg : Config) (s : InterpState) (inp : Option Frame) :
    InterpState × FrameOut :=
  match inp with
  | Option.none => ({ s with handDetected := false, isDrawing := false }, noActions)
  | some f => frameStep cfg { s with handDetected := true } f

/-- Run a list of tracked frames, recording whether any frame fired a close or
a clear action. -/
def runFrames (cfg : Config) (s : InterpState) : List Frame → InterpState × FrameOut
  | [] => (s, noActions)
  | f :: fs =>
    let r1 := frameStep cfg s f
    let r2 := runFrames cfg r1.1 fs
    (r2.1, { closeFired := r1.2.closeFired || r2.2.closeFired,
             clearFired := r1.2.clearFired || r2.2.clearFired })

/-- `AirCanvas.createBalloon`, first README variant (lines 377-395): await 3D
creation; only on success remove the 2D stroke from the store and advance the
color index cyclically; on failure only a status message is shown.  The
outcome of the external `createFromStroke` promise is the `success` input. -/
def createBalloon (cfg : Config) (s : InterpState) (stroke : Stroke) (success : Bool) :
    InterpState :=
  if success then
    { s with canvas := DrawingCanvas.removeCompletedStroke stroke s.canvas,
             currentColorIndex := (s.currentColorIndex + 1) % cfg.palette.length }
  else s

/-- `AirCanvas.createBalloon`, second README variant (lines 943-954): remove
the 2D stroke from the store first, then attempt 3D creation; neither success
nor failure of the attempt changes interpreter state further. -/
def createBalloonV2 (s : InterpState) (stroke : Stroke) (_success : Bool) : InterpState :=
  { s with canvas := DrawingCanvas.removeCompletedStroke stroke s.canvas }

/-- The closing-animation progress of `AirCanvas.closeAndInflate`:
`min(elapsed / (STROKE_CLOSE_PULSE * 1000), 1)` of wall-clock elapsed time. -/
def closingProgress (pulse elapsed : ℚ) : ℚ :=
  min (elapsed / (pulse * 1000)) 1

/-- What one self-scheduled animation step does at a given elapsed time. -/
inductive ClosingStep where
  | rescheduled
  | solidify
deriving DecidableEq, Repr

/-- One step of the closing animation: reschedule while progress < 1,
otherwise hand the stroke to `createBalloon`. -/
def closingStep (pulse elapsed : ℚ) : ClosingStep :=
  if closingProgress pulse elapsed < 1 then ClosingStep.rescheduled
  else ClosingStep.solidify

end AirCanvas

/-! ## Helper lemmas -/

theorem pathLen_of_short (d : Point2D → Point2D → ℚ) (l : List Point2D)
    (h : l.length < 2) : DrawingCanvas.pathLen d l = 0 := by
  match l with
  | [] => rfl
  | [_] => rfl
  | a :: b :: rest => simp only [List.length_cons] at h; omega

theorem calculateStrokeLength_eq_pathLen (cfg : Config) (c : CanvasState) (st : Stroke)
    (hcur : c.currentStroke = some st) :
    DrawingCanvas.calculateStrokeLength cfg c = DrawingCanvas.pathLen cfg.dist st.points := by
  simp only [DrawingCanvas.calculateStrokeLength, hcur]
  split_ifs with h
  · exact (pathLen_of_short cfg.dist st.points h).symm
  · rfl

/-! ## Reference configuration for witnesses

Modelled from the spec: `constants.ts` is not among the source files; the
spec (section 6) lists the constants as externally supplied configuration.
The hold durations (500 ms palm, 1000 ms fist) and the 10-entry pastel
palette match the spec and README; the remaining numeric values are
representative.  `dist` is the taxicab metric, which agrees with the
Euclidean metric of the source on the axis-aligned segments used below. -/

def specConfig : Config where
  minPointDistance := 5
  minStrokeLength := 10
  palmHoldTime := 500
  fistHoldTime := 1000
  strokeClosePulse := 2/5
  strokeWidth := 8
  palette := ["#FFB3BA", "#FFDFBA", "#FFFFBA", "#BAFFC9", "#BAE1FF",
              "#E3BAFF", "#FFBAE3", "#BAFFF4", "#D4BAFF", "#FFD4BA"]
  dist := fun p q => |p.x - q.x| + |p.y - q.y|

/-! ## Claim C10 -/

/-- Claim C10: calling addPoint when no stroke is in progress is a total
no-op — the whole store state (current stroke and completed set) is
unchanged, for every input point. -/
theorem addPoint_no_current_stroke (cfg : Config) (p : Point2D) (cs : List Stroke) :
    DrawingCanvas.addPoint cfg p { currentStroke := Option.none, completedStrokes := cs } =
      { currentStroke := Option.none, completedStrokes := cs } := rfl

/-! ## Claim C1 -/

/-- Claim C1: on a store holding a current stroke whose summed consecutive
segment length is below the minimum stroke length, or whose point count is
at most 2, closeStroke returns null, discards the current stroke, and leaves
the completed set unchanged. -/
theorem closeStroke_rejects_short (cfg : Config) (c : CanvasState) (st : Stroke)
    (hcur : c.currentStroke = some st)
    (h : DrawingCanvas.pathLen cfg.dist st.points < cfg.minStrokeLength ∨
         st.points.length ≤ 2) :
    (DrawingCanvas.closeStroke cfg c).1 = Option.none ∧
    (DrawingCanvas.closeStroke cfg c).2.currentStroke = Option.none ∧
    (DrawingCanvas.closeStroke cfg c).2.completedStrokes = c.completedStrokes := by
  have hlen := calculateStrokeLength_eq_pathLen cfg c st hcur
  by_cases hL : DrawingCanvas.calculateStrokeLength cfg c < cfg.minStrokeLength
  · simp [DrawingCanvas.closeStroke, hcur, hL, DrawingCanvas.discardStroke]
  · have h2 : st.points.length ≤ 2 := by
      rcases h with h | h
      · exact absurd (by rw [hlen]; exact h) hL
      · exact h
    simp [DrawingCanvas.closeStroke, hcur, hL, DrawingCanvas.discardStroke,
      Nat.not_lt.mpr h2]

/-- A two-point stroke of taxicab length 2, below the reference minimum
stroke length of 10. -/
def strokeShortW : Stroke :=
  { points := [⟨0, 0⟩, ⟨2, 0⟩], color := "#FFB3BA", width := 8, closed := false }

/-- A store state holding only the short stroke. -/
def canvasShortW : CanvasState :=
  { currentStroke := some strokeShortW, completedStrokes := [] }

/-- Witness for claim C1 at a concrete short stroke. -/
theorem closeStroke_rejects_short_witness :
    (DrawingCanvas.closeStroke specConfig canvasShortW).1 = Option.none ∧
    (DrawingCanvas.closeStroke specConfig canvasShortW).2.currentStroke = Option.none ∧
    (DrawingCanvas.closeStroke specConfig canvasShortW).2.completedStrokes =
      canvasShortW.completedStrokes :=
  closeStroke_rejects_short specConfig canvasShortW strokeShortW rfl
    (Or.inl (by norm_num [DrawingCanvas.pathLen, specConfig, strokeShortW]))

/-! ## Claim C9 -/

/-- Claim C9: a tracker frame with null landmarks while a stroke is in
progress only clears the drawing flag — the stroke store keeps the current
stroke and the completed set unchanged, the hold timers, grabbed object and
last gesture are untouched, and no action fires. -/
theorem onHandResults_null_pauses (cfg : Config) (s : InterpState) (st : Stroke)
    (hcur : s.canvas.currentStroke = some st) :
    (AirCanvas.onHandResults cfg s Option.none).1.canvas = s.canvas ∧
    (AirCanvas.onHandResults cfg s Option.none).1.canvas.currentStroke = some st ∧
    (AirCanvas.onHandResults cfg s Option.none).1.canvas.completedStrokes =
      s.canvas.completedStrokes ∧
    (AirCanvas.onHandResults cfg s Option.none).1.isDrawing = false ∧
    (AirCanvas.onHandResults cfg s Option.none).1.palmHoldStart = s.palmHoldStart ∧
    (AirCanvas.onHandResults cfg s Option.none).1.fistHoldStart = s.fistHoldStart ∧
    (AirCanvas.onHandResults cfg s Option.none).1.grabbedObject = s.grabbedObject ∧
    (AirCanvas.onHandResults cfg s Option.none).1.lastGesture = s.lastGesture ∧
    (AirCanvas.onHandResults cfg s Option.none).2 = noActions :=
  ⟨rfl, hcur, rfl, rfl, rfl, rfl, rfl, rfl, rfl⟩

/-- A five-point in-progress stroke for the interpreter witnesses. -/
def strokeLiveW : Stroke :=
  { points := [⟨0, 0⟩, ⟨6, 0⟩, ⟨6, 6⟩, ⟨0, 6⟩, ⟨0, 1⟩],
    color := "#FFB3BA", width := 8, closed := false }

/-- An interpreter state that is mid-drawing on the live stroke. -/
def interpDrawingW : InterpState :=
  { isDrawing := true, currentColorIndex := 0, palmHoldStart := 0, fistHoldStart := 0,
    grabbedObject := Option.none, handDetected := true,
    lastGesture := some GestureKind.draw,
    canvas := { currentStroke := some strokeLiveW, completedStrokes := [] } }

/-- Witness for claim C9 at a concrete mid-drawing state. -/
theorem onHandResults_null_pauses_witness :
    (AirCanvas.onHandResults specConfig interpDrawingW Option.none).1.canvas =
      interpDrawingW.canvas ∧
    (AirCanvas.onHandResults specConfig interpDrawingW Option.none).1.canvas.currentStroke =
      some strokeLiveW ∧
    (AirCanvas.onHandResults specConfig interpDrawingW Option.none).1.canvas.completedStrokes =
      interpDrawingW.canvas.completedStrokes ∧
    (AirCanvas.onHandResults specConfig interpDrawingW Option.none).1.isDrawing = false ∧
    (AirCanvas.onHandResults specConfig interpDrawingW Option.none).1.palmHoldStart =
      interpDrawingW.palmHoldStart ∧
    (AirCanvas.onHandResults specConfig interpDrawingW Option.none).1.fistHoldStart =
      interpDrawingW.fistHoldStart ∧
    (AirCanvas.onHandResults specConfig interpDrawingW Option.none).1.grabbedObject =
      interpDrawingW.grabbedObject ∧
    (AirCanvas.onHandResults specConfig interpDrawingW Option.none).1.lastGesture =
      interpDrawingW.lastGesture ∧
    (AirCanvas.onHandResults specConfig interpDrawingW Option.none).2 = noActions :=
  onHandResults_null_pauses specConfig interpDrawingW strokeLiveW rfl

/-! ## Claim C8 -/

/-- Claim C8: the closing-animation progress equals
min(elapsed / duration, 1): it is monotone in elapsed time, never exceeds 1,
and the step hands the stroke to solidification exactly when progress
reaches 1, equivalently exactly when the elapsed time reaches the duration,
independent of the number of frames. -/
theorem closingProgress_monotone_terminates (pulse e e' : ℚ)
    (hp : 0 < pulse) (he : e ≤ e') :
    AirCanvas.closingProgress pulse e ≤ AirCanvas.closingProgress pulse e' ∧
    AirCanvas.closingProgress pulse e ≤ 1 ∧
    (AirCanvas.closingStep pulse e = AirCanvas.ClosingStep.solidify ↔
      AirCanvas.closingProgress pulse e = 1) ∧
    (AirCanvas.closingStep pulse e = AirCanvas.ClosingStep.solidify ↔
      pulse * 1000 ≤ e) := by
  have hc : (0 : ℚ) < pulse * 1000 := by positivity
  have hbound : AirCanvas.closingProgress pulse e ≤ 1 := min_le_right _ _
  have hmono : AirCanvas.closingProgress pulse e ≤ AirCanvas.closingProgress pulse e' := by
    unfold AirCanvas.closingProgress
    exact min_le_min (by gcongr) le_rfl
  have hiff : AirCanvas.closingProgress pulse e = 1 ↔ pulse * 1000 ≤ e := by
    unfold AirCanvas.closingProgress
    exact min_eq_right_iff.trans (one_le_div hc)
  have hstep : AirCanvas.closingStep pulse e = AirCanvas.ClosingStep.solidify ↔
      AirCanvas.closingProgress pulse e = 1 := by
    unfold AirCanvas.closingStep
    split_ifs with h
    · simp [h.ne]
    · simp [le_antisymm hbound (not_lt.mp h)]
  exact ⟨hmono, hbound, hstep, hstep.trans hiff⟩

/-- Witness for claim C8 at a concrete pulse duration and elapsed times. -/
theorem closingProgress_monotone_terminates_witness :
    AirCanvas.closingProgress (2/5) 100 ≤ AirCanvas.closingProgress (2/5) 400 ∧
    AirCanvas.closingProgress (2/5) 100 ≤ 1 ∧
    (AirCanvas.closingStep (2/5) 100 = AirCanvas.ClosingStep.solidify ↔
      AirCanvas.closingProgress (2/5) 100 = 1) ∧
    (AirCanvas.closingStep (2/5) 100 = AirCanvas.ClosingStep.solidify ↔
      (2/5 : ℚ) * 1000 ≤ 100) :=
  closingProgress_monotone_terminates (2/5) 100 400 (by norm_num) (by norm_num)

/-! ## More helper lemmas -/

theorem addPoint_completed (cfg : Config) (p : Point2D) (c : CanvasState) :
    (DrawingCanvas.addPoint cfg p c).completedStrokes = c.completedStrokes := by
  unfold DrawingCanvas.addPoint
  split
  · rfl
  · split
    · rfl
    · split <;> rfl

theorem closeStroke_mem_completed (cfg : Config) (c : CanvasState) (x : Stroke)
    (hx : x ∈ c.completedStrokes) :
    x ∈ (DrawingCanvas.closeStroke cfg c).2.completedStrokes := by
  unfold DrawingCanvas.closeStroke
  split
  · exact hx
  · split_ifs
    · exact hx
    · exact List.mem_append_left _ hx
    · exact hx

theorem not_mem_erase_of_count_le_one (x : Stroke) (l : List Stroke)
    (h : l.count x ≤ 1) : x ∉ l.erase x := by
  intro hmem
  have h1 := List.count_erase_self x l
  have h2 := List.count_pos_iff.mpr hmem
  omega

/-! ## Claim C5 -/

/-- Claim C5 (amended): closeStroke on a valid current stroke (more than 2
points, length at least the threshold) returns the stroke marked closed,
stores it in the completed set and clears the current reference; membership
in the completed set is preserved by startStroke, addPoint, pauseStroke,
discardStroke, closeStroke and removeCompletedStroke with a different
stroke, and removeCompletedStroke with the stroke itself removes it (first
occurrence, the identity-based removal of the source).  The amendment:
clearAll also empties the completed set, so persistence holds only until
removeCompletedStroke with that stroke or clearAll. -/
theorem closeStroke_valid_persists (cfg : Config) (c c2 : CanvasState) (st t : Stroke)
    (p : Point2D) (color : String)
    (hcur : c.currentStroke = some st)
    (hlen : cfg.minStrokeLength ≤ DrawingCanvas.pathLen cfg.dist st.points)
    (hpts : 2 < st.points.length)
    (hmem : { st with closed := true } ∈ c2.completedStrokes)
    (ht : t ≠ { st with closed := true })
    (hcount : c2.completedStrokes.count { st with closed := true } ≤ 1) :
    (DrawingCanvas.closeStroke cfg c).1 = some { st with closed := true } ∧
    (DrawingCanvas.closeStroke cfg c).2.currentStroke = Option.none ∧
    { st with closed := true } ∈ (DrawingCanvas.closeStroke cfg c).2.completedStrokes ∧
    { st with closed := true } ∈
      (DrawingCanvas.startStroke cfg p color c2).completedStrokes ∧
    { st with closed := true } ∈ (DrawingCanvas.addPoint cfg p c2).completedStrokes ∧
    { st with closed := true } ∈ (DrawingCanvas.pauseStroke c2).completedStrokes ∧
    { st with closed := true } ∈ (DrawingCanvas.discardStroke c2).completedStrokes ∧
    { st with closed := true } ∈ (DrawingCanvas.closeStroke cfg c2).2.completedStrokes ∧
    { st with closed := true } ∈
      (DrawingCanvas.removeCompletedStroke t c2).completedStrokes ∧
    { st with closed := true } ∉
      (DrawingCanvas.removeCompletedStroke { st with closed := true } c2).completedStrokes := by
  have hL : ¬ DrawingCanvas.calculateStrokeLength cfg c < cfg.minStrokeLength := by
    rw [calculateStrokeLength_eq_pathLen cfg c st hcur]
    exact not_lt.mpr hlen
  refine ⟨?_, ?_, ?_, ?_, ?_, ?_, ?_, ?_, ?_, ?_⟩
  · simp [DrawingCanvas.closeStroke, hcur, hL, hpts]
  · simp [DrawingCanvas.closeStroke, hcur, hL, hpts]
  · simp [DrawingCanvas.closeStroke, hcur, hL, hpts]
  · simpa [DrawingCanvas.startStroke] using hmem
  · rw [addPoint_completed]; exact hmem
  · exact hmem
  · simpa [DrawingCanvas.discardStroke] using hmem
  · exact closeStroke_mem_completed cfg c2 _ hmem
  · exact (List.mem_erase_of_ne (Ne.symm ht)).mpr hmem
  · exact not_mem_erase_of_count_le_one _ _ hcount

/-- The live stroke marked closed, as snapshotted by closeStroke. -/
def closedLiveW : Stroke := { strokeLiveW with closed := true }

/-- A store state holding only the live stroke as current. -/
def canvasLiveW : CanvasState :=
  { currentStroke := some strokeLiveW, completedStrokes := [] }

/-- A completed-set state holding exactly the closed live stroke. -/
def canvasCompletedW : CanvasState :=
  { currentStroke := Option.none, completedStrokes := [closedLiveW] }

/-- A stroke distinct from the closed live stroke. -/
def strokeOtherW : Stroke :=
  { points := [], color := "x", width := 0, closed := false }

/-- Witness for claim C5 at a concrete valid stroke. -/
theorem closeStroke_valid_persists_witness :
    (DrawingCanvas.closeStroke specConfig canvasLiveW).1 = some closedLiveW ∧
    (DrawingCanvas.closeStroke specConfig canvasLiveW).2.currentStroke = Option.none ∧
    closedLiveW ∈ (DrawingCanvas.closeStroke specConfig canvasLiveW).2.completedStrokes ∧
    closedLiveW ∈
      (DrawingCanvas.startStroke specConfig ⟨1, 1⟩ "#FFB3BA" canvasCompletedW).completedStrokes ∧
    closedLiveW ∈ (DrawingCanvas.addPoint specConfig ⟨1, 1⟩ canvasCompletedW).completedStrokes ∧
    closedLiveW ∈ (DrawingCanvas.pauseStroke canvasCompletedW).completedStrokes ∧
    closedLiveW ∈ (DrawingCanvas.discardStroke canvasCompletedW).completedStrokes ∧
    closedLiveW ∈ (DrawingCanvas.closeStroke specConfig canvasCompletedW).2.completedStrokes ∧
    closedLiveW ∈
      (DrawingCanvas.removeCompletedStroke strokeOtherW canvasCompletedW).completedStrokes ∧
    closedLiveW ∉
      (DrawingCanvas.removeCompletedStroke closedLiveW canvasCompletedW).completedStrokes :=
  closeStroke_valid_persists specConfig canvasLiveW canvasCompletedW strokeLiveW strokeOtherW
    ⟨1, 1⟩ "#FFB3BA" rfl
    (by norm_num [DrawingCanvas.pathLen, specConfig, strokeLiveW])
    (by norm_num [strokeLiveW])
    (by simp [canvasCompletedW, closedLiveW])
    (by simp [strokeOtherW, closedLiveW, strokeLiveW, Stroke.mk.injEq])
    (by simp [canvasCompletedW, closedLiveW, List.count_cons])

/-- Counterexample for claim C5 as stated: after a successful closeStroke,
calling clearAll removes the closed stroke from the completed set although
removeCompletedStroke was never called with it. -/
theorem closeStroke_member_clearAll_counterexample :
    (DrawingCanvas.closeStroke specConfig canvasLiveW).1 = some closedLiveW ∧
    closedLiveW ∈ (DrawingCanvas.closeStroke specConfig canvasLiveW).2.completedStrokes ∧
    closedLiveW ∉
      (DrawingCanvas.clearAll
        (DrawingCanvas.closeStroke specConfig canvasLiveW).2).completedStrokes := by
  refine ⟨?_, ?_, ?_⟩
  · norm_num [DrawingCanvas.closeStroke, DrawingCanvas.calculateStrokeLength,
      DrawingCanvas.pathLen, canvasLiveW, strokeLiveW, specConfig, closedLiveW]
  · norm_num [DrawingCanvas.closeStroke, DrawingCanvas.calculateStrokeLength,
      DrawingCanvas.pathLen, canvasLiveW, strokeLiveW, specConfig, closedLiveW]
  · simp [DrawingCanvas.clearAll]

/-! ## Claim C6 -/

/-- Claim C6 (amended): addPoint with a stroke in progress appends the point
exactly when its distance from the last stored point is at least (boundary
inclusive, not strictly above) the minimum spacing, otherwise leaves the
store unchanged; the completed set is never touched; and the invariant that
consecutive stored points are at least the minimum spacing apart is
preserved. -/
theorem addPoint_min_spacing (cfg : Config) (c : CanvasState) (st : Stroke)
    (p lastPoint : Point2D)
    (hcur : c.currentStroke = some st)
    (hlast : st.points.getLast? = some lastPoint)
    (hsp : spaced cfg st.points) :
    DrawingCanvas.addPoint cfg p c =
      (if cfg.minPointDistance ≤ cfg.dist p lastPoint then
        { c with currentStroke := some { st with points := st.points ++ [p] } }
       else c) ∧
    (DrawingCanvas.addPoint cfg p c).completedStrokes = c.completedStrokes ∧
    spacedCurrent cfg (DrawingCanvas.addPoint cfg p c) := by
  have heq : DrawingCanvas.addPoint cfg p c =
      (if cfg.minPointDistance ≤ cfg.dist p lastPoint then
        { c with currentStroke := some { st with points := st.points ++ [p] } }
       else c) := by
    simp only [DrawingCanvas.addPoint, hcur, hlast]
  refine ⟨heq, addPoint_completed cfg p c, ?_⟩
  rw [heq]
  split_ifs with h
  · show spaced cfg (st.points ++ [p])
    unfold spaced at hsp ⊢
    rw [List.chain'_append]
    refine ⟨hsp, List.chain'_singleton p, ?_⟩
    intro x hx y hy
    rw [hlast] at hx
    simp only [Option.mem_def, Option.some.injEq] at hx
    simp only [List.head?_cons, Option.mem_def, Option.some.injEq] at hy
    subst hx
    subst hy
    exact h
  · show spacedCurrent cfg c
    simp only [spacedCurrent, hcur]
    exact hsp

/-- A store state whose current stroke has the single point (0, 0). -/
def canvasOnePointW : CanvasState :=
  { currentStroke := some { points := [⟨0, 0⟩], color := "#FFB3BA",
                            width := 8, closed := false },
    completedStrokes := [] }

/-- Counterexample for claim C6 as stated: a point at distance exactly equal
to the minimum spacing is appended although its distance does not exceed
(strictly) the minimum spacing constant. -/
theorem addPoint_boundary_counterexample :
    (DrawingCanvas.addPoint specConfig ⟨5, 0⟩ canvasOnePointW).currentStroke =
      some { points := [⟨0, 0⟩, ⟨5, 0⟩], color := "#FFB3BA", width := 8,
             closed := false } ∧
    ¬ specConfig.minPointDistance <
        specConfig.dist ⟨5, 0⟩ (⟨0, 0⟩ : Point2D) := by
  constructor
  · norm_num [DrawingCanvas.addPoint, canvasOnePointW, specConfig]
  · norm_num [specConfig]

/-- Witness for claim C6 at a concrete accepted point. -/
theorem addPoint_min_spacing_witness :
    DrawingCanvas.addPoint specConfig ⟨12, 0⟩ canvasOnePointW =
      (if specConfig.minPointDistance ≤ specConfig.dist ⟨12, 0⟩ (⟨0, 0⟩ : Point2D) then
        { canvasOnePointW with
            currentStroke := some ({ points := [⟨0, 0⟩, ⟨12, 0⟩], color := "#FFB3BA",
                                     width := 8, closed := false } : Stroke) }
       else canvasOnePointW) ∧
    (DrawingCanvas.addPoint specConfig ⟨12, 0⟩ canvasOnePointW).completedStrokes =
      canvasOnePointW.completedStrokes ∧
    spacedCurrent specConfig (DrawingCanvas.addPoint specConfig ⟨12, 0⟩ canvasOnePointW) :=
  addPoint_min_spacing specConfig canvasOnePointW
    { points := [⟨0, 0⟩], color := "#FFB3BA", width := 8, closed := false }
    ⟨12, 0⟩ ⟨0, 0⟩ rfl rfl (List.chain'_singleton _)

/-! ## Claim C7 -/

/-- Claim C7: after the closing animation completes and solidification
succeeds, createBalloon (first variant, the one owning the cyclic palette)
removes the finalized stroke from the store and advances the color index by
exactly one modulo the palette length, leaving the current stroke alone. -/
theorem createBalloon_success_advances (cfg : Config) (s : InterpState) (st : Stroke)
    (hcount : s.canvas.completedStrokes.count st ≤ 1) :
    (AirCanvas.createBalloon cfg s st true).canvas.completedStrokes =
      s.canvas.completedStrokes.erase st ∧
    st ∉ (AirCanvas.createBalloon cfg s st true).canvas.completedStrokes ∧
    (AirCanvas.createBalloon cfg s st true).currentColorIndex =
      (s.currentColorIndex + 1) % cfg.palette.length ∧
    (AirCanvas.createBalloon cfg s st true).canvas.currentStroke =
      s.canvas.currentStroke := by
  refine ⟨rfl, ?_, rfl, rfl⟩
  show st ∉ s.canvas.completedStrokes.erase st
  exact not_mem_erase_of_count_le_one _ _ hcount

/-- The interpreter state right after the valid stroke was closed: color
index at the last palette entry, the closed stroke awaiting solidification. -/
def interpAfterCloseW : InterpState :=
  { isDrawing := false, currentColorIndex := 9, palmHoldStart := 0, fistHoldStart := 0,
    grabbedObject := Option.none, handDetected := true,
    lastGesture := some GestureKind.palm, canvas := canvasCompletedW }

/-- Witness for claim C7: solidification success removes the stroke and wraps
the color index from 9 to 0 in the 10-entry palette. -/
theorem createBalloon_success_advances_witness :
    (AirCanvas.createBalloon specConfig interpAfterCloseW closedLiveW true).canvas.completedStrokes =
      interpAfterCloseW.canvas.completedStrokes.erase closedLiveW ∧
    closedLiveW ∉
      (AirCanvas.createBalloon specConfig interpAfterCloseW closedLiveW true).canvas.completedStrokes ∧
    (AirCanvas.createBalloon specConfig interpAfterCloseW closedLiveW true).currentColorIndex =
      (interpAfterCloseW.currentColorIndex + 1) % specConfig.palette.length ∧
    (AirCanvas.createBalloon specConfig interpAfterCloseW closedLiveW true).canvas.currentStroke =
      interpAfterCloseW.canvas.currentStroke :=
  createBalloon_success_advances specConfig interpAfterCloseW closedLiveW
    (by simp [interpAfterCloseW, canvasCompletedW, List.count_cons])

/-! ## Claim C3 -/

/-- Counterexample for claim C3 as stated: in the first createBalloon variant
the stroke is removed only after createFromStroke succeeds, so when
solidification fails the finalized stroke is still in the completed set —
an orphaned stroke. -/
theorem createBalloon_failure_orphan_counterexample :
    closedLiveW ∈
      (AirCanvas.createBalloon specConfig interpAfterCloseW closedLiveW
        false).canvas.completedStrokes := by
  simp [AirCanvas.createBalloon, interpAfterCloseW, canvasCompletedW]

/-- Claim C3 (amended): in the second createBalloon variant the finalized
stroke is removed from the store before solidification is attempted, so the
post-state is the same whether createFromStroke succeeds or fails and a
failure never leaves an orphaned stroke; the first variant removes the
stroke only on success, so there a failure does leave it in the completed
set. -/
theorem createBalloonV2_removes_first (s : InterpState) (st : Stroke) (success : Bool)
    (hcount : s.canvas.completedStrokes.count st ≤ 1) :
    (AirCanvas.createBalloonV2 s st success).canvas.completedStrokes =
      s.canvas.completedStrokes.erase st ∧
    st ∉ (AirCanvas.createBalloonV2 s st success).canvas.completedStrokes ∧
    AirCanvas.createBalloonV2 s st false = AirCanvas.createBalloonV2 s st true := by
  refine ⟨rfl, ?_, rfl⟩
  show st ∉ s.canvas.completedStrokes.erase st
  exact not_mem_erase_of_count_le_one _ _ hcount

/-- Witness for claim C3 (amended) at a concrete failing solidification. -/
theorem createBalloonV2_removes_first_witness :
    (AirCanvas.createBalloonV2 interpAfterCloseW closedLiveW false).canvas.completedStrokes =
      interpAfterCloseW.canvas.completedStrokes.erase closedLiveW ∧
    closedLiveW ∉
      (AirCanvas.createBalloonV2 interpAfterCloseW closedLiveW false).canvas.completedStrokes ∧
    AirCanvas.createBalloonV2 interpAfterCloseW closedLiveW false =
      AirCanvas.createBalloonV2 interpAfterCloseW closedLiveW true :=
  createBalloonV2_removes_first interpAfterCloseW closedLiveW false
    (by simp [interpAfterCloseW, canvasCompletedW, List.count_cons])

/-! ## Claim C2 -/

theorem closeAndInflate_fields (cfg : Config) (s : InterpState) :
    (AirCanvas.closeAndInflate cfg s).grabbedObject = s.grabbedObject ∧
    (AirCanvas.closeAndInflate cfg s).palmHoldStart = s.palmHoldStart ∧
    (AirCanvas.closeAndInflate cfg s).fistHoldStart = s.fistHoldStart ∧
    (AirCanvas.closeAndInflate cfg s).lastGesture = s.lastGesture ∧
    (AirCanvas.closeAndInflate cfg s).currentColorIndex = s.currentColorIndex := by
  refine ⟨?_, ?_, ?_, ?_, ?_⟩ <;>
    (simp only [AirCanvas.closeAndInflate]; split <;> rfl)

theorem handleGesture_nonTimer_fields (cfg : Config) (s : InterpState) (f : Frame) :
    (AirCanvas.handleGesture cfg s f).1.canvas = (AirCanvas.dispatch cfg s f).1.canvas ∧
    (AirCanvas.handleGesture cfg s f).1.grabbedObject =
      (AirCanvas.dispatch cfg s f).1.grabbedObject ∧
    (AirCanvas.handleGesture cfg s f).1.isDrawing =
      (AirCanvas.dispatch cfg s f).1.isDrawing ∧
    (AirCanvas.handleGesture cfg s f).1.currentColorIndex =
      (AirCanvas.dispatch cfg s f).1.currentColorIndex ∧
    (AirCanvas.handleGesture cfg s f).2 = (AirCanvas.dispatch cfg s f).2 := by
  unfold AirCanvas.handleGesture
  split
  · split_ifs <;> exact ⟨rfl, rfl, rfl, rfl, rfl⟩
  · exact ⟨rfl, rfl, rfl, rfl, rfl⟩

/-- Claim C2 (amended): while an object is grabbed, a draw gesture whose
fingertip hits no object starts a new stroke immediately (the grab does not
block drawing) and the object stays grabbed; the grabbed object is released
automatically only on palm frames and on none/unrecognized frames, while
draw, fist, swipe and pinch frames keep it grabbed — release does not happen
on every gesture-kind change away from pinch. -/
theorem grab_release_semantics (cfg : Config) (s : InterpState) (r : Nat)
    (fd fp fn ff fsw fpi : Frame)
    (hg : s.grabbedObject = some r)
    (hnd : s.isDrawing = false)
    (hfd : fd.kind = GestureKind.draw) (hfdhit : fd.hitAtIndexTip = Option.none)
    (hfp : fp.kind = GestureKind.palm)
    (hfn : fn.kind = GestureKind.none)
    (hff : ff.kind = GestureKind.fist)
    (hfsw : fsw.kind = GestureKind.swipe)
    (hfpi : fpi.kind = GestureKind.pinch) :
    (AirCanvas.frameStep cfg s fd).1.canvas.currentStroke =
      some ({ points := [fd.indexTip], color := cfg.palette.getD s.currentColorIndex "",
              width := cfg.strokeWidth, closed := false } : Stroke) ∧
    (AirCanvas.frameStep cfg s fd).1.isDrawing = true ∧
    (AirCanvas.frameStep cfg s fd).1.grabbedObject = some r ∧
    (AirCanvas.frameStep cfg s fp).1.grabbedObject = Option.none ∧
    (AirCanvas.frameStep cfg s fn).1.grabbedObject = Option.none ∧
    (AirCanvas.frameStep cfg s ff).1.grabbedObject = some r ∧
    (AirCanvas.frameStep cfg s fsw).1.grabbedObject = some r ∧
    (AirCanvas.frameStep cfg s fpi).1.grabbedObject = some r := by
  refine ⟨?_, ?_, ?_, ?_, ?_, ?_, ?_, ?_⟩
  · show (AirCanvas.handleGesture cfg s fd).1.canvas.currentStroke = _
    rw [(handleGesture_nonTimer_fields cfg s fd).1]
    simp [AirCanvas.dispatch, hfd, AirCanvas.handleDraw, hfdhit, hnd,
      DrawingCanvas.startStroke]
  · show (AirCanvas.handleGesture cfg s fd).1.isDrawing = true
    rw [(handleGesture_nonTimer_fields cfg s fd).2.2.1]
    simp [AirCanvas.dispatch, hfd, AirCanvas.handleDraw, hfdhit, hnd]
  · show (AirCanvas.handleGesture cfg s fd).1.grabbedObject = some r
    rw [(handleGesture_nonTimer_fields cfg s fd).2.1]
    simp [AirCanvas.dispatch, hfd, AirCanvas.handleDraw, hfdhit, hnd, hg]
  · show (AirCanvas.handleGesture cfg s fp).1.grabbedObject = Option.none
    rw [(handleGesture_nonTimer_fields cfg s fp).2.1]
    simp only [AirCanvas.dispatch, hfp, AirCanvas.handlePalm]
    split_ifs <;> simp [(closeAndInflate_fields cfg _).1]
  · show (AirCanvas.handleGesture cfg s fn).1.grabbedObject = Option.none
    rw [(handleGesture_nonTimer_fields cfg s fn).2.1]
    simp [AirCanvas.dispatch, hfn, AirCanvas.handleDefault]
  · show (AirCanvas.handleGesture cfg s ff).1.grabbedObject = some r
    rw [(handleGesture_nonTimer_fields cfg s ff).2.1]
    simp only [AirCanvas.dispatch, hff, AirCanvas.handleFist]
    split_ifs with h <;> simp [hg]
  · show (AirCanvas.handleGesture cfg s fsw).1.grabbedObject = some r
    rw [(handleGesture_nonTimer_fields cfg s fsw).2.1]
    simp [AirCanvas.dispatch, hfsw, AirCanvas.handleSwipe, hg]
  · show (AirCanvas.handleGesture cfg s fpi).1.grabbedObject = some r
    rw [(handleGesture_nonTimer_fields cfg s fpi).2.1]
    simp only [AirCanvas.dispatch, hfpi, AirCanvas.handlePinch]
    split_ifs with h <;> simp [hg]

/-- An interpreter state holding a grabbed object, not drawing, whose last
gesture was pinch. -/
def interpGrabbedW : InterpState :=
  { isDrawing := false, currentColorIndex := 0, palmHoldStart := 0, fistHoldStart := 0,
    grabbedObject := some 0, handDetected := true,
    lastGesture := some GestureKind.pinch,
    canvas := { currentStroke := Option.none, completedStrokes := [] } }

/-- A draw frame over empty canvas. -/
def frameDrawW : Frame :=
  { kind := GestureKind.draw, time := 2000, indexTip := ⟨3, 4⟩, pinchCenter := ⟨3, 4⟩,
    hitAtIndexTip := Option.none, hitAtPinch := Option.none }

/-- Counterexample for claim C2 as stated: with an object grabbed and the
gesture kind changing from pinch to draw over empty canvas, a new stroke is
started on that very frame while the object is still grabbed — drawing is
not blocked until release, and the change away from pinch did not release
the object. -/
theorem draw_while_grabbed_counterexample :
    (AirCanvas.frameStep specConfig interpGrabbedW frameDrawW).1.canvas.currentStroke =
      some ({ points := [⟨3, 4⟩], color := "#FFB3BA", width := 8,
              closed := false } : Stroke) ∧
    (AirCanvas.frameStep specConfig interpGrabbedW frameDrawW).1.grabbedObject =
      some 0 := by
  constructor <;>
    simp [AirCanvas.frameStep, AirCanvas.handleGesture, AirCanvas.dispatch,
      AirCanvas.handleDraw, DrawingCanvas.startStroke, interpGrabbedW, frameDrawW,
      specConfig]

/-- A palm frame. -/
def framePalmW : Frame :=
  { kind := GestureKind.palm, time := 2100, indexTip := ⟨3, 4⟩, pinchCenter := ⟨3, 4⟩,
    hitAtIndexTip := Option.none, hitAtPinch := Option.none }

/-- A none frame. -/
def frameNoneW : Frame :=
  { kind := GestureKind.none, time := 2200, indexTip := ⟨3, 4⟩, pinchCenter := ⟨3, 4⟩,
    hitAtIndexTip := Option.none, hitAtPinch := Option.none }

/-- A fist frame. -/
def frameFistW : Frame :=
  { kind := GestureKind.fist, time := 2300, indexTip := ⟨3, 4⟩, pinchCenter := ⟨3, 4⟩,
    hitAtIndexTip := Option.none, hitAtPinch := Option.none }

/-- A swipe frame. -/
def frameSwipeW : Frame :=
  { kind := GestureKind.swipe, time := 2400, indexTip := ⟨3, 4⟩, pinchCenter := ⟨3, 4⟩,
    hitAtIndexTip := Option.none, hitAtPinch := Option.none }

/-- A pinch frame. -/
def framePinchW : Frame :=
  { kind := GestureKind.pinch, time := 2500, indexTip := ⟨3, 4⟩, pinchCenter := ⟨3, 4⟩,
    hitAtIndexTip := Option.none, hitAtPinch := Option.none }

/-- Witness for claim C2 (amended) at a concrete grabbed state and frames. -/
theorem grab_release_semantics_witness :
    (AirCanvas.frameStep specConfig interpGrabbedW frameDrawW).1.canvas.currentStroke =
      some ({ points := [frameDrawW.indexTip],
              color := specConfig.palette.getD interpGrabbedW.currentColorIndex "",
              width := specConfig.strokeWidth, closed := false } : Stroke) ∧
    (AirCanvas.frameStep specConfig interpGrabbedW frameDrawW).1.isDrawing = true ∧
    (AirCanvas.frameStep specConfig interpGrabbedW frameDrawW).1.grabbedObject = some 0 ∧
    (AirCanvas.frameStep specConfig interpGrabbedW framePalmW).1.grabbedObject =
      Option.none ∧
    (AirCanvas.frameStep specConfig interpGrabbedW frameNoneW).1.grabbedObject =
      Option.none ∧
    (AirCanvas.frameStep specConfig interpGrabbedW frameFistW).1.grabbedObject = some 0 ∧
    (AirCanvas.frameStep specConfig interpGrabbedW frameSwipeW).1.grabbedObject = some 0 ∧
    (AirCanvas.frameStep specConfig interpGrabbedW framePinchW).1.grabbedObject = some 0 :=
  grab_release_semantics specConfig interpGrabbedW 0
    frameDrawW framePalmW frameNoneW frameFistW frameSwipeW framePinchW
    rfl rfl rfl rfl rfl rfl rfl rfl rfl

/-! ## Claim C4 -/

/-- A frame belonging to a same-kind run that started at time t1 and stays
below the configured hold duration of its kind. -/
def frameOkAt (cfg : Config) (k : GestureKind) (t1 : ℚ) (f : Frame) : Prop :=
  f.kind = k ∧ t1 ≤ f.time ∧
  (k = GestureKind.palm → f.time < t1 + cfg.palmHoldTime) ∧
  (k = GestureKind.fist → f.time < t1 + cfg.fistHoldTime)

/-- The hold-timer invariant along a same-kind run: the last gesture is the
run kind, and each timer is unset unless it belongs to the run kind and was
started no earlier than t1. -/
def holdInv (k : GestureKind) (t1 : ℚ) (s : InterpState) : Prop :=
  s.lastGesture = some k ∧
  (s.palmHoldStart = 0 ∨ (t1 ≤ s.palmHoldStart ∧ k = GestureKind.palm)) ∧
  (s.fistHoldStart = 0 ∨ (t1 ≤ s.fistHoldStart ∧ k = GestureKind.fist))

theorem handleDraw_timers (cfg : Config) (s : InterpState) (f : Frame) :
    (AirCanvas.handleDraw cfg s f).palmHoldStart = s.palmHoldStart ∧
    (AirCanvas.handleDraw cfg s f).fistHoldStart = s.fistHoldStart := by
  refine ⟨?_, ?_⟩ <;>
    (simp only [AirCanvas.handleDraw]; split <;> first | rfl | (split <;> rfl))

theorem handlePinch_timers (s : InterpState) (f : Frame) :
    (AirCanvas.handlePinch s f).palmHoldStart = s.palmHoldStart ∧
    (AirCanvas.handlePinch s f).fistHoldStart = s.fistHoldStart := by
  refine ⟨?_, ?_⟩ <;>
    (simp only [AirCanvas.handlePinch]; split_ifs <;>
      (split <;> first | rfl | (split <;> rfl)))

theorem dispatch_nohold (cfg : Config) (s : InterpState) (f : Frame)
    (h1 : f.kind ≠ GestureKind.palm) (h2 : f.kind ≠ GestureKind.fist) :
    (AirCanvas.dispatch cfg s f).1.palmHoldStart = s.palmHoldStart ∧
    (AirCanvas.dispatch cfg s f).1.fistHoldStart = s.fistHoldStart ∧
    (AirCanvas.dispatch cfg s f).2 = noActions := by
  cases hfk : f.kind with
  | none =>
    simp only [AirCanvas.dispatch, hfk]
    exact ⟨rfl, rfl, trivial⟩
  | draw =>
    simp only [AirCanvas.dispatch, hfk]
    exact ⟨(handleDraw_timers cfg s f).1, (handleDraw_timers cfg s f).2, trivial⟩
  | pinch =>
    simp only [AirCanvas.dispatch, hfk]
    exact ⟨(handlePinch_timers s f).1, (handlePinch_timers s f).2, trivial⟩
  | palm => exact absurd hfk h1
  | fist => exact absurd hfk h2
  | swipe =>
    simp only [AirCanvas.dispatch, hfk]
    exact ⟨rfl, rfl, trivial⟩

theorem dispatch_palm_zero (cfg : Config) (s : InterpState) (f : Frame)
    (hk : f.kind = GestureKind.palm) (hz : s.palmHoldStart = 0)
    (hp : 0 < cfg.palmHoldTime) :
    (AirCanvas.dispatch cfg s f).1.palmHoldStart = f.time ∧
    (AirCanvas.dispatch cfg s f).1.fistHoldStart = s.fistHoldStart ∧
    (AirCanvas.dispatch cfg s f).2 = noActions := by
  simp only [AirCanvas.dispatch, hk, AirCanvas.handlePalm, hz, eq_self_iff_true,
    if_true, sub_self]
  rw [if_neg (not_le.mpr hp)]
  exact ⟨rfl, rfl, rfl⟩

theorem dispatch_palm_below (cfg : Config) (s : InterpState) (f : Frame)
    (hk : f.kind = GestureKind.palm) (hnz : s.palmHoldStart ≠ 0)
    (hlt : f.time - s.palmHoldStart < cfg.palmHoldTime) :
    (AirCanvas.dispatch cfg s f).1.palmHoldStart = s.palmHoldStart ∧
    (AirCanvas.dispatch cfg s f).1.fistHoldStart = s.fistHoldStart ∧
    (AirCanvas.dispatch cfg s f).2 = noActions := by
  simp only [AirCanvas.dispatch, hk, AirCanvas.handlePalm]
  rw [if_neg hnz, if_neg (not_le.mpr hlt)]
  exact ⟨rfl, rfl, rfl⟩

theorem dispatch_fist_zero (cfg : Config) (s : InterpState) (f : Frame)
    (hk : f.kind = GestureKind.fist) (hz : s.fistHoldStart = 0)
    (hf : 0 < cfg.fistHoldTime) :
    (AirCanvas.dispatch cfg s f).1.palmHoldStart = s.palmHoldStart ∧
    (AirCanvas.dispatch cfg s f).1.fistHoldStart = f.time ∧
    (AirCanvas.dispatch cfg s f).2 = noActions := by
  simp only [AirCanvas.dispatch, hk, AirCanvas.handleFist, hz, eq_self_iff_true,
    if_true, sub_self]
  rw [if_neg (not_le.mpr hf)]
  exact ⟨rfl, rfl, rfl⟩

theorem dispatch_fist_below (cfg : Config) (s : InterpState) (f : Frame)
    (hk : f.kind = GestureKind.fist) (hnz : s.fistHoldStart ≠ 0)
    (hlt : f.time - s.fistHoldStart < cfg.fistHoldTime) :
    (AirCanvas.dispatch cfg s f).1.palmHoldStart = s.palmHoldStart ∧
    (AirCanvas.dispatch cfg s f).1.fistHoldStart = s.fistHoldStart ∧
    (AirCanvas.dispatch cfg s f).2 = noActions := by
  simp only [AirCanvas.dispatch, hk, AirCanvas.handleFist]
  rw [if_neg hnz, if_neg (not_le.mpr hlt)]
  exact ⟨rfl, rfl, rfl⟩

theorem frameStep_same_kind (cfg : Config) (s : InterpState) (f : Frame) (k : GestureKind)
    (hlg : s.lastGesture = some k) (hk : f.kind = k) :
    AirCanvas.frameStep cfg s f =
      ({ (AirCanvas.dispatch cfg s f).1 with lastGesture := some f.kind },
       (AirCanvas.dispatch cfg s f).2) := by
  simp only [AirCanvas.frameStep, AirCanvas.handleGesture, hlg, hk]
  simp

theorem frameStep_changed_kind (cfg : Config) (s : InterpState) (f : Frame) (k : GestureKind)
    (hlg : s.lastGesture = some k) (hk : f.kind ≠ k) :
    AirCanvas.frameStep cfg s f =
      ({ (AirCanvas.dispatch cfg s f).1 with
          palmHoldStart := 0, fistHoldStart := 0, lastGesture := some f.kind },
       (AirCanvas.dispatch cfg s f).2) := by
  simp only [AirCanvas.frameStep, AirCanvas.handleGesture, hlg]
  rw [if_pos hk]

theorem holdInv_step (cfg : Config) (k : GestureKind) (t1 : ℚ) (s : InterpState) (f : Frame)
    (hp : 0 < cfg.palmHoldTime) (hf : 0 < cfg.fistHoldTime)
    (hInv : holdInv k t1 s) (hok : frameOkAt cfg k t1 f) :
    holdInv k t1 (AirCanvas.frameStep cfg s f).1 ∧
    (AirCanvas.frameStep cfg s f).2 = noActions := by
  obtain ⟨hlg, hP, hF⟩ := hInv
  obtain ⟨hk, ht, hpb, hfb⟩ := hok
  rw [frameStep_same_kind cfg s f k hlg hk]
  by_cases h1 : k = GestureKind.palm
  · subst h1
    have hFz : s.fistHoldStart = 0 := by
      rcases hF with h | ⟨_, hcon⟩
      · exact h
      · exact GestureKind.noConfusion hcon
    by_cases hz : s.palmHoldStart = 0
    · have hd := dispatch_palm_zero cfg s f hk hz hp
      refine ⟨⟨by simp [hk], ?_, ?_⟩, hd.2.2⟩
      · show (AirCanvas.dispatch cfg s f).1.palmHoldStart = 0 ∨ _
        rw [hd.1]
        exact Or.inr ⟨ht, rfl⟩
      · show (AirCanvas.dispatch cfg s f).1.fistHoldStart = 0 ∨ _
        rw [hd.2.1, hFz]
        exact Or.inl rfl
    · have hge : t1 ≤ s.palmHoldStart := by
        rcases hP with h | ⟨h, _⟩
        · exact absurd h hz
        · exact h
      have hlt : f.time - s.palmHoldStart < cfg.palmHoldTime := by
        have := hpb rfl
        linarith
      have hd := dispatch_palm_below cfg s f hk hz hlt
      refine ⟨⟨by simp [hk], ?_, ?_⟩, hd.2.2⟩
      · show (AirCanvas.dispatch cfg s f).1.palmHoldStart = 0 ∨ _
        rw [hd.1]
        exact Or.inr ⟨hge, rfl⟩
      · show (AirCanvas.dispatch cfg s f).1.fistHoldStart = 0 ∨ _
        rw [hd.2.1, hFz]
        exact Or.inl rfl
  · by_cases h2 : k = GestureKind.fist
    · subst h2
      have hPz : s.palmHoldStart = 0 := by
        rcases hP with h | ⟨_, hcon⟩
        · exact h
        · exact GestureKind.noConfusion hcon
      by_cases hz : s.fistHoldStart = 0
      · have hd := dispatch_fist_zero cfg s f hk hz hf
        refine ⟨⟨by simp [hk], ?_, ?_⟩, hd.2.2⟩
        · show (AirCanvas.dispatch cfg s f).1.palmHoldStart = 0 ∨ _
          rw [hd.1, hPz]
          exact Or.inl rfl
        · show (AirCanvas.dispatch cfg s f).1.fistHoldStart = 0 ∨ _
          rw [hd.2.1]
          exact Or.inr ⟨ht, rfl⟩
      · have hge : t1 ≤ s.fistHoldStart := by
          rcases hF with h | ⟨h, _⟩
          · exact absurd h hz
          · exact h
        have hlt : f.time - s.fistHoldStart < cfg.fistHoldTime := by
          have := hfb rfl
          linarith
        have hd := dispatch_fist_below cfg s f hk hz hlt
        refine ⟨⟨by simp [hk], ?_, ?_⟩, hd.2.2⟩
        · show (AirCanvas.dispatch cfg s f).1.palmHoldStart = 0 ∨ _
          rw [hd.1, hPz]
          exact Or.inl rfl
        · show (AirCanvas.dispatch cfg s f).1.fistHoldStart = 0 ∨ _
          rw [hd.2.1]
          exact Or.inr ⟨hge, rfl⟩
    · have hd := dispatch_nohold cfg s f (hk ▸ h1) (hk ▸ h2)
      refine ⟨⟨by simp [hk], ?_, ?_⟩, hd.2.2⟩
      · show (AirCanvas.dispatch cfg s f).1.palmHoldStart = 0 ∨ _
        rw [hd.1]
        exact hP
      · show (AirCanvas.dispatch cfg s f).1.fistHoldStart = 0 ∨ _
        rw [hd.2.1]
        exact hF

theorem holdInv_run (cfg : Config) (k : GestureKind) (t1 : ℚ)
    (hp : 0 < cfg.palmHoldTime) (hf : 0 < cfg.fistHoldTime) :
    ∀ (fs : List Frame) (s : InterpState),
      (∀ f ∈ fs, frameOkAt cfg k t1 f) → holdInv k t1 s →
      holdInv k t1 (AirCanvas.runFrames cfg s fs).1 ∧
        (AirCanvas.runFrames cfg s fs).2 = noActions
  | [], s, _, hInv => ⟨hInv, rfl⟩
  | f :: fs, s, hok, hInv => by
    have h1 := holdInv_step cfg k t1 s f hp hf hInv (hok f (List.mem_cons_self f fs))
    have h2 := holdInv_run cfg k t1 hp hf fs (AirCanvas.frameStep cfg s f).1
      (fun g hg => hok g (List.mem_cons_of_mem f hg)) h1.1
    constructor
    · show holdInv k t1 (AirCanvas.runFrames cfg s (f :: fs)).1
      simp only [AirCanvas.runFrames]
      exact h2.1
    · show (AirCanvas.runFrames cfg s (f :: fs)).2 = noActions
      simp only [AirCanvas.runFrames]
      rw [h1.2, h2.2]
      rfl

theorem holdInv_change (cfg : Config) (k : GestureKind) (t1 : ℚ) (s : InterpState)
    (fc : Frame)
    (hp : 0 < cfg.palmHoldTime) (hf : 0 < cfg.fistHoldTime)
    (hInv : holdInv k t1 s) (hc : fc.kind ≠ k) :
    (AirCanvas.frameStep cfg s fc).2 = noActions ∧
    (AirCanvas.frameStep cfg s fc).1.palmHoldStart = 0 ∧
    (AirCanvas.frameStep cfg s fc).1.fistHoldStart = 0 := by
  obtain ⟨hlg, hP, hF⟩ := hInv
  rw [frameStep_changed_kind cfg s fc k hlg hc]
  refine ⟨?_, rfl, rfl⟩
  by_cases h1 : fc.kind = GestureKind.palm
  · have hz : s.palmHoldStart = 0 := by
      rcases hP with h | ⟨_, hk2⟩
      · exact h
      · exact absurd (h1.trans hk2.symm) hc
    exact (dispatch_palm_zero cfg s fc h1 hz hp).2.2
  · by_cases h2 : fc.kind = GestureKind.fist
    · have hz : s.fistHoldStart = 0 := by
        rcases hF with h | ⟨_, hk2⟩
        · exact h
        · exact absurd (h2.trans hk2.symm) hc
      exact (dispatch_fist_zero cfg s fc h2 hz hf).2.2
    · exact (dispatch_nohold cfg s fc h1 h2).2.2

/-- Claim C4: along any frame run of one gesture kind whose timestamps stay
below the configured hold duration (counted from the first frame of the
run), neither the palm-hold closure nor the fist-hold clear fires; and on
the frame where the gesture kind changes, again neither action fires and
both hold timers are reset to unset (0). -/
theorem holdTimer_abort (cfg : Config) (s0 : InterpState) (k : GestureKind) (t1 : ℚ)
    (fs : List Frame) (fc : Frame)
    (hp : 0 < cfg.palmHoldTime) (hf : 0 < cfg.fistHoldTime)
    (hlg : s0.lastGesture = some k)
    (h0p : s0.palmHoldStart = 0) (h0f : s0.fistHoldStart = 0)
    (hfs : ∀ f ∈ fs, frameOkAt cfg k t1 f)
    (hc : fc.kind ≠ k) :
    (AirCanvas.runFrames cfg s0 fs).2 = noActions ∧
    (AirCanvas.frameStep cfg (AirCanvas.runFrames cfg s0 fs).1 fc).2 = noActions ∧
    (AirCanvas.frameStep cfg (AirCanvas.runFrames cfg s0 fs).1 fc).1.palmHoldStart = 0 ∧
    (AirCanvas.frameStep cfg (AirCanvas.runFrames cfg s0 fs).1 fc).1.fistHoldStart = 0 := by
  have hInv0 : holdInv k t1 s0 := ⟨hlg, Or.inl h0p, Or.inl h0f⟩
  have hrun := holdInv_run cfg k t1 hp hf fs s0 hfs hInv0
  have hch := holdInv_change cfg k t1 (AirCanvas.runFrames cfg s0 fs).1 fc hp hf hrun.1 hc
  exact ⟨hrun.2, hch.1, hch.2.1, hch.2.2⟩

/-- An interpreter state at the start of a palm run. -/
def interpPalmRunW : InterpState :=
  { isDrawing := false, currentColorIndex := 0, palmHoldStart := 0, fistHoldStart := 0,
    grabbedObject := Option.none, handDetected := true,
    lastGesture := some GestureKind.palm,
    canvas := { currentStroke := some strokeLiveW, completedStrokes := [] } }

/-- A palm frame at 1000 ms. -/
def framePalm1000W : Frame :=
  { kind := GestureKind.palm, time := 1000, indexTip := ⟨3, 4⟩, pinchCenter := ⟨3, 4⟩,
    hitAtIndexTip := Option.none, hitAtPinch := Option.none }

/-- A palm frame at 1400 ms, still below the 500 ms hold threshold counted
from 1000 ms. -/
def framePalm1400W : Frame :=
  { kind := GestureKind.palm, time := 1400, indexTip := ⟨3, 4⟩, pinchCenter := ⟨3, 4⟩,
    hitAtIndexTip := Option.none, hitAtPinch := Option.none }

/-- A fist frame at 1450 ms, the frame on which the gesture kind changes. -/
def frameFist1450W : Frame :=
  { kind := GestureKind.fist, time := 1450, indexTip := ⟨3, 4⟩, pinchCenter := ⟨3, 4⟩,
    hitAtIndexTip := Option.none, hitAtPinch := Option.none }

/-- Witness for claim C4: a 400 ms palm hold (below the 500 ms threshold)
aborted by a fist frame fires neither action and leaves both timers unset. -/
theorem holdTimer_abort_witness :
    (AirCanvas.runFrames specConfig interpPalmRunW [framePalm1000W, framePalm1400W]).2 =
      noActions ∧
    (AirCanvas.frameStep specConfig
      (AirCanvas.runFrames specConfig interpPalmRunW [framePalm1000W, framePalm1400W]).1
      frameFist1450W).2 = noActions ∧
    (AirCanvas.frameStep specConfig
      (AirCanvas.runFrames specConfig interpPalmRunW [framePalm1000W, framePalm1400W]).1
      frameFist1450W).1.palmHoldStart = 0 ∧
    (AirCanvas.frameStep specConfig
      (AirCanvas.runFrames specConfig interpPalmRunW [framePalm1000W, framePalm1400W]).1
      frameFist1450W).1.fistHoldStart = 0 :=
  holdTimer_abort specConfig interpPalmRunW GestureKind.palm 1000
    [framePalm1000W, framePalm1400W] frameFist1450W
    (by norm_num [specConfig]) (by norm_num [specConfig]) rfl rfl rfl
    (by
      intro f hfm
      simp only [List.mem_cons, List.not_mem_nil, or_false] at hfm
      rcases hfm with rfl | rfl <;>
        exact ⟨rfl, by norm_num [framePalm1000W, framePalm1400W],
          fun _ => by norm_num [framePalm1000W, framePalm1400W, specConfig],
          fun hcon => GestureKind.noConfusion hcon⟩)
    (by simp [frameFist1450W])
